import Mathlib

/-!
Shallow embedding of the refresh/update logic of the Salus Control smart-home
integration: the functions `async_update_data` of `binary_sensor.py` and
`climate.py`, and the command methods of `SalusThermostat` in `climate.py`.

Modelling conventions:
* A gateway interaction (one `poll_status()` + `get_*_devices()` sequence) is a
  `GatewayAttempt`: how long the calls take (`latency`) and either the devices
  returned or `none` when the gateway call raises (a transport error).
* `async_timeout.timeout(n)` is modelled by `attemptOutcome`: the attempt
  raises `asyncio.TimeoutError` exactly when the latency exceeds the budget.
* Exceptions are the `error` side of `Except`; a function whose Python body
  raises is a function returning `Except.error`.
* Each update function returns a `RunTrace`: the value returned (or the
  exception propagated), how many gateway attempts were started, and the list
  of `asyncio.sleep` delays performed between attempts.
-/

set_option autoImplicit false

/-- A device as read from the gateway response: its stable identifier, the
`available` flag consulted by the update code, and its binary state. -/
structure Device where
  unique_id : Nat
  available : Bool
  is_on : Bool
deriving DecidableEq, Repr

/-- Python exceptions relevant to the update paths: `asyncio.TimeoutError`
raised by the expiring `async_timeout.timeout` context, any other exception
raised by the gateway call (a transport error), and the `NameError` raised
when an unimported module name such as `asyncio` is evaluated. -/
inductive PyExc where
  | timeoutError
  | transportError
  | nameError
deriving DecidableEq, Repr

/-- One gateway interaction: its duration in time units and its outcome
(`none` when the gateway call raises, `some devices` when it returns the
values of the device mapping). -/
structure GatewayAttempt where
  latency : Nat
  response : Option (List Device)

/-- `async_timeout.timeout(10)` — binary_sensor.py line 31. -/
def binary_sensor_timeout : Nat := 10

/-- `async_timeout.timeout(30)` — climate.py line 36. -/
def climate_timeout : Nat := 30

/-- Outcome of running one gateway interaction under a timeout budget:
`asyncio.TimeoutError` when the latency exceeds the budget, otherwise the
gateway call's own outcome (raise, or return the devices). -/
def attemptOutcome (budget : Nat) (a : GatewayAttempt) : Except PyExc (List Device) :=
  if budget < a.latency then Except.error PyExc.timeoutError
  else
    match a.response with
    | none => Except.error PyExc.transportError
    | some ds => Except.ok ds

/-- Whether an attempt outcome is an exception. -/
def isErr : Except PyExc (List Device) → Bool
  | Except.error _ => true
  | Except.ok _ => false

/-- The body of the `try` block of `binary_sensor.async_update_data`
(binary_sensor.py lines 31–48): run the poll under the 10-unit timeout,
filter the returned devices on `device.available` (unavailable devices are
logged and excluded), and return: `[]` when no device is available
(lines 44–46), the available devices otherwise (line 48). Both are ordinary
`return` statements — an empty available set is not raised as an error. -/
def bsTryBody (a : GatewayAttempt) : Except PyExc (List Device) :=
  match attemptOutcome binary_sensor_timeout a with
  | Except.error e => Except.error e
  | Except.ok devices =>
    let valid_devices := devices.filter (fun d => d.available)
    if valid_devices.isEmpty then Except.ok []
    else Except.ok valid_devices

/-- Trace of one call to an update function: the returned value or propagated
exception, the number of gateway attempts started, and the sleep delays
performed between attempts. -/
structure RunTrace where
  result : Except PyExc (List Device)
  calls : Nat
  sleeps : List Nat
deriving Repr

/-- `retries = 3` — binary_sensor.py line 28. -/
def bsRetries : Nat := 3

/-- `binary_sensor.async_update_data` (binary_sensor.py lines 26–59), faithful
to the module as written: the module never imports `asyncio`, so when the body
of the `try` raises, evaluating the handler expression `asyncio.TimeoutError`
(line 50) itself raises `NameError`, which propagates out of the function
immediately — the retry logging, the `asyncio.sleep(5)` at line 56 and the
give-up `return []` at lines 58–59 are unreachable. Hence: exactly one gateway
attempt is ever started; if it returns, its value is returned, and if it
raises anything, `NameError` propagates with no sleep performed. -/
def async_update_data (gw : Nat → GatewayAttempt) : RunTrace :=
  match bsTryBody (gw 0) with
  | Except.ok ds => ⟨Except.ok ds, 1, []⟩
  | Except.error _ => ⟨Except.error PyExc.nameError, 1, []⟩

/-- The retry loop `for attempt in range(retries)` of
`binary_sensor.async_update_data` (binary_sensor.py lines 29–59) under the
reading where the name `asyncio` resolves (i.e. with the module's missing
`import asyncio` supplied, which is the loop's evident intent): an exception
from an attempt is caught and logged, `asyncio.sleep(5)` runs when
`attempt < retries - 1` (lines 55–56), and after the last failed attempt the
loop falls through to `return []` (lines 58–59) — a normal return of an empty
list, not an exception. -/
def bsLoopResolved (gw : Nat → GatewayAttempt) :
    List Nat → Nat → List Nat → RunTrace
  | [], calls, sleeps => ⟨Except.ok [], calls, sleeps⟩
  | attempt :: rest, calls, sleeps =>
    match bsTryBody (gw attempt) with
    | Except.ok ds => ⟨Except.ok ds, calls + 1, sleeps⟩
    | Except.error _ =>
      if attempt < bsRetries - 1 then
        bsLoopResolved gw rest (calls + 1) (sleeps ++ [5])
      else
        bsLoopResolved gw rest (calls + 1) sleeps

/-- Entry point of the resolved reading of the binary-sensor retry loop:
iterate over `range(retries)` starting with no calls made and no sleeps. -/
def async_update_data_resolved (gw : Nat → GatewayAttempt) : RunTrace :=
  bsLoopResolved gw (List.range bsRetries) 0 []

/-- `climate.async_update_data` (climate.py lines 33–43): a single attempt
under `async_timeout.timeout(30)`; on success the device mapping is returned
unchanged (no availability filtering, line 40); on any exception the error is
logged and re-raised (lines 41–43). There is no retry loop and no sleep. -/
def climate_async_update_data (gw : Nat → GatewayAttempt) : RunTrace :=
  match attemptOutcome climate_timeout (gw 0) with
  | Except.ok ds => ⟨Except.ok ds, 1, []⟩
  | Except.error e => ⟨Except.error e, 1, []⟩

/-- Modelled from the spec: the snapshot store of the surrounding
`DataUpdateCoordinator` (Home Assistant framework code, not part of this
repository). A cycle whose update function returns normally replaces the
stored snapshot with the returned value; a cycle whose update function raises
leaves the previous snapshot in place. The initial empty state is `[]`. -/
def applyCycle (prev : List Device) (r : Except PyExc (List Device)) : List Device :=
  match r with
  | Except.ok ds => ds
  | Except.error _ => prev

/-- The instance attributes a `SalusThermostat` can be asked for by its own
methods: the three stored by `__init__` and the `_device` read by the command
methods. -/
inductive ThermoAttr where
  | coordinator
  | idx
  | gateway
  | device
deriving DecidableEq, Repr

/-- `SalusThermostat.__init__` (climate.py lines 67–71) assigns exactly
`self._coordinator`, `self._idx` and `self._gateway`; it never assigns
`self._device`. `initAssigns a = true` iff attribute `a` exists on a freshly
constructed instance. -/
def initAssigns : ThermoAttr → Bool
  | ThermoAttr.coordinator => true
  | ThermoAttr.idx => true
  | ThermoAttr.gateway => true
  | ThermoAttr.device => false

/-- A command issued to the gateway by a thermostat method. -/
inductive GatewayCall where
  | setTemperature (t : Int)
  | setFanMode (m : Nat)
  | setHvacMode (m : Nat)
  | setPreset (m : Nat)
deriving DecidableEq, Repr

/-- Trace of one thermostat command method call: the gateway commands issued,
the number of coordinator refresh requests made, and whether an
`AttributeError` propagated (raised by reading a missing instance attribute,
before any gateway call on the same line runs). -/
structure CmdTrace where
  gatewayCalls : List GatewayCall
  refreshes : Nat
  raisedAttributeError : Bool
deriving DecidableEq, Repr

/-- `SalusThermostat.async_set_temperature` (climate.py lines 205–211):
`kwargs.get(ATTR_TEMPERATURE)` is `none` when the key is absent or bound to
`None`, and then the method returns at once with no side effect (lines
208–209). Otherwise line 210 evaluates `self._device` before calling the
gateway: when the attribute does not exist, `AttributeError` propagates and
neither the gateway call nor the refresh request at line 211 runs. -/
def async_set_temperature (attrs : ThermoAttr → Bool)
    (temperature : Option Int) : CmdTrace :=
  match temperature with
  | none => ⟨[], 0, false⟩
  | some t =>
    if attrs ThermoAttr.device then ⟨[GatewayCall.setTemperature t], 1, false⟩
    else ⟨[], 0, true⟩

/-- `SalusThermostat.async_set_fan_mode` (climate.py lines 213–216): line 215
evaluates `self._device` before the gateway call; a missing attribute raises
`AttributeError` and the gateway call and refresh request never run. -/
def async_set_fan_mode (attrs : ThermoAttr → Bool) (fan_mode : Nat) : CmdTrace :=
  if attrs ThermoAttr.device then ⟨[GatewayCall.setFanMode fan_mode], 1, false⟩
  else ⟨[], 0, true⟩

/-- `SalusThermostat.async_set_hvac_mode` (climate.py lines 218–221): same
shape as `async_set_fan_mode`, reading `self._device` at line 220. -/
def async_set_hvac_mode (attrs : ThermoAttr → Bool) (hvac_mode : Nat) : CmdTrace :=
  if attrs ThermoAttr.device then ⟨[GatewayCall.setHvacMode hvac_mode], 1, false⟩
  else ⟨[], 0, true⟩

/-- `SalusThermostat.async_set_preset_mode` (climate.py lines 223–226): same
shape, reading `self._device` at line 225. -/
def async_set_preset_mode (attrs : ThermoAttr → Bool) (preset_mode : Nat) : CmdTrace :=
  if attrs ThermoAttr.device then ⟨[GatewayCall.setPreset preset_mode], 1, false⟩
  else ⟨[], 0, true⟩

/-! Concrete gateway behaviours used as witnesses and counterexamples. -/

/-- A gateway whose every interaction takes 11 units, exceeding the
binary-sensor budget of 10: every binary-sensor attempt times out. -/
def alwaysTimeoutGw : Nat → GatewayAttempt :=
  fun _ => ⟨11, some [⟨0, true, true⟩]⟩

/-- A gateway whose first two interactions time out (11 > 10) and whose third
returns one available device promptly. -/
def failTwiceGw : Nat → GatewayAttempt :=
  fun i => if i < 2 then ⟨11, some [⟨0, true, true⟩]⟩ else ⟨1, some [⟨0, true, true⟩]⟩

/-- A gateway that responds promptly with a single unavailable device: the
available set of the response is empty. -/
def noAvailableGw : Nat → GatewayAttempt :=
  fun _ => ⟨1, some [⟨0, false, false⟩]⟩

/-- A gateway whose every interaction takes 31 units, exceeding even the
climate budget of 30: every climate attempt times out. -/
def climateTimeoutGw : Nat → GatewayAttempt :=
  fun _ => ⟨31, some [⟨0, true, true⟩]⟩

/-- A gateway that responds promptly with one available and one unavailable
device. -/
def mixedBsGw : Nat → GatewayAttempt :=
  fun _ => ⟨1, some [⟨0, true, true⟩, ⟨1, false, false⟩]⟩

/-- A gateway that responds promptly with a single unavailable device,
polled by the climate update. -/
def unavailableClimateGw : Nat → GatewayAttempt :=
  fun _ => ⟨1, some [⟨7, false, false⟩]⟩

/-- A gateway whose call raises (transport error) promptly. -/
def transportFailGw : Nat → GatewayAttempt :=
  fun _ => ⟨1, none⟩

/-! Claim theorems. -/

/-- Claim C7: in `binary_sensor.async_update_data`, whenever the first gateway
attempt raises any exception, the function propagates `NameError` (the name
`asyncio` in the handler at line 50 is never imported); exactly one attempt is
started and no inter-attempt sleep runs, so the second and third attempts and
the `asyncio.sleep(5)` are unreachable; the function completes normally only
when the first attempt raises no exception. -/
theorem C7_theorem (gw : Nat → GatewayAttempt)
    (h : isErr (attemptOutcome binary_sensor_timeout (gw 0)) = true) :
    async_update_data gw = ⟨Except.error PyExc.nameError, 1, []⟩ := by
  cases ha : attemptOutcome binary_sensor_timeout (gw 0) with
  | ok ds => simp [isErr, ha] at h
  | error e =>
    have hb : bsTryBody (gw 0) = Except.error e := by simp [bsTryBody, ha]
    simp [async_update_data, hb]

/-- Claim C7 witness: against the always-timing-out gateway, the binary-sensor
update propagates `NameError` after one call and no sleep. -/
theorem C7_witness :
    isErr (attemptOutcome binary_sensor_timeout (alwaysTimeoutGw 0)) = true ∧
    async_update_data alwaysTimeoutGw = ⟨Except.error PyExc.nameError, 1, []⟩ :=
  ⟨rfl, C7_theorem alwaysTimeoutGw rfl⟩

/-- Claim C8: the per-attempt timeout is exactly 10 time units for the
binary-sensor category and exactly 30 for the climate category: an attempt
raises `asyncio.TimeoutError` under the binary-sensor budget precisely when
its latency exceeds 10, and under the climate budget precisely when its
latency exceeds 30. -/
theorem C8_theorem (a : GatewayAttempt) :
    (attemptOutcome binary_sensor_timeout a = Except.error PyExc.timeoutError ↔
        10 < a.latency) ∧
    (attemptOutcome climate_timeout a = Except.error PyExc.timeoutError ↔
        30 < a.latency) := by
  unfold attemptOutcome binary_sensor_timeout climate_timeout
  constructor <;>
  · split
    · simp_all
    · cases a.response <;> simp_all

/-- Claim C9: every thermostat command method that reaches its gateway call —
`async_set_temperature` with a non-`None` temperature, `async_set_fan_mode`,
`async_set_hvac_mode`, `async_set_preset_mode` — raises `AttributeError` on a
freshly constructed `SalusThermostat` before contacting the gateway, because
`__init__` never assigns `self._device`: no gateway command is issued and no
refresh is requested. -/
theorem C9_theorem (t : Int) (fm hm pm : Nat) :
    async_set_temperature initAssigns (some t) = ⟨[], 0, true⟩ ∧
    async_set_fan_mode initAssigns fm = ⟨[], 0, true⟩ ∧
    async_set_hvac_mode initAssigns hm = ⟨[], 0, true⟩ ∧
    async_set_preset_mode initAssigns pm = ⟨[], 0, true⟩ :=
  ⟨rfl, rfl, rfl, rfl⟩

/-- Claim C10: `async_set_temperature` called without `ATTR_TEMPERATURE` (or
with it bound to `None`) returns immediately with no side effect: no gateway
command, no refresh request, and no exception. -/
theorem C10_theorem (attrs : ThermoAttr → Bool) :
    async_set_temperature attrs none = ⟨[], 0, false⟩ := rfl

/-- Claim C2 evidence: on the gateway that times out twice then succeeds, the
code as written propagates `NameError` after exactly 1 call and no sleep
(the missing `import asyncio` defeats the retry loop), while the same loop
with the import slip fixed shows the intended behaviour the claim describes:
exactly 3 calls, sleeps of 5 between attempts 1→2 and 2→3, no delay after the
final attempt, and a successful result. -/
theorem C2_theorem :
    async_update_data failTwiceGw = ⟨Except.error PyExc.nameError, 1, []⟩ ∧
    async_update_data_resolved failTwiceGw =
      ⟨Except.ok [⟨0, true, true⟩], 3, [5, 5]⟩ :=
  ⟨rfl, rfl⟩

/-- Claim C1 counterexample: with a previous snapshot holding one device and a
gateway on which all three attempts of the (resolved) retry loop time out, the
give-up path returns `[]` as a normal result, so the snapshot exposed
afterwards is the empty snapshot — it differs from the previous snapshot, and
the cycle's result is not a failure value. -/
theorem C1_counterexample :
    async_update_data_resolved alwaysTimeoutGw = ⟨Except.ok [], 3, [5, 5]⟩ ∧
    applyCycle [⟨0, true, true⟩]
      (async_update_data_resolved alwaysTimeoutGw).result = [] ∧
    applyCycle [⟨0, true, true⟩]
      (async_update_data_resolved alwaysTimeoutGw).result ≠ [⟨0, true, true⟩] := by
  refine ⟨rfl, rfl, ?hne⟩
  decide

/-- Claim C1 (amended): a binary-sensor refresh cycle that reaches the give-up
path — all three attempts fail, under the reading where `asyncio` resolves —
returns the empty list as a normal result (lines 58–59), after 3 calls and two
5-unit sleeps; the coordinator then stores the empty snapshot, replacing the
previous one, and no failure value is produced. -/
theorem C1_theorem (gw : Nat → GatewayAttempt) (prev : List Device)
    (e0 e1 e2 : PyExc)
    (h0 : bsTryBody (gw 0) = Except.error e0)
    (h1 : bsTryBody (gw 1) = Except.error e1)
    (h2 : bsTryBody (gw 2) = Except.error e2) :
    async_update_data_resolved gw = ⟨Except.ok [], 3, [5, 5]⟩ ∧
    applyCycle prev (async_update_data_resolved gw).result = [] := by
  have hr : List.range bsRetries = [0, 1, 2] := rfl
  have hmain : async_update_data_resolved gw = ⟨Except.ok [], 3, [5, 5]⟩ := by
    simp [async_update_data_resolved, hr, bsLoopResolved, h0, h1, h2, bsRetries]
  exact ⟨hmain, by simp [hmain, applyCycle]⟩

/-- Claim C1 witness: the always-timing-out gateway fails all three attempts,
and starting from the empty snapshot the stored snapshot after give-up is
empty. -/
theorem C1_witness :
    bsTryBody (alwaysTimeoutGw 0) = Except.error PyExc.timeoutError ∧
    bsTryBody (alwaysTimeoutGw 1) = Except.error PyExc.timeoutError ∧
    bsTryBody (alwaysTimeoutGw 2) = Except.error PyExc.timeoutError ∧
    (async_update_data_resolved alwaysTimeoutGw = ⟨Except.ok [], 3, [5, 5]⟩ ∧
     applyCycle [] (async_update_data_resolved alwaysTimeoutGw).result = []) :=
  ⟨rfl, rfl, rfl,
    C1_theorem alwaysTimeoutGw [] PyExc.timeoutError PyExc.timeoutError
      PyExc.timeoutError rfl rfl rfl⟩

/-- Claim C3 counterexample: on a gateway answering promptly with a single
unavailable device (empty available set), both the code as written and the
resolved reading of the loop end the cycle after exactly 1 call with a normal
empty-list return — no error is raised and no retry attempt is consumed. -/
theorem C3_counterexample :
    async_update_data noAvailableGw = ⟨Except.ok [], 1, []⟩ ∧
    async_update_data_resolved noAvailableGw = ⟨Except.ok [], 1, []⟩ :=
  ⟨rfl, rfl⟩

/-- Claim C3 (amended): a refresh cycle whose first gateway response yields
zero available devices ends immediately: the condition is logged at error
level and the function returns `[]` as a normal result (lines 44–46); no
`NoDataError` is raised and no retry attempt is consumed. -/
theorem C3_theorem (gw : Nat → GatewayAttempt) (ds : List Device)
    (h0 : attemptOutcome binary_sensor_timeout (gw 0) = Except.ok ds)
    (h1 : (ds.filter (fun d => d.available)).isEmpty = true) :
    async_update_data gw = ⟨Except.ok [], 1, []⟩ ∧
    async_update_data_resolved gw = ⟨Except.ok [], 1, []⟩ := by
  have hb : bsTryBody (gw 0) = Except.ok [] := by
    simp [bsTryBody, h0, h1]
  constructor
  · simp [async_update_data, hb]
  · have hr : List.range bsRetries = [0, 1, 2] := rfl
    simp [async_update_data_resolved, hr, bsLoopResolved, hb]

/-- Claim C3 witness: the unavailable-device gateway satisfies the hypotheses
and the cycle returns the empty list normally after one call. -/
theorem C3_witness :
    attemptOutcome binary_sensor_timeout (noAvailableGw 0) =
      Except.ok [⟨0, false, false⟩] ∧
    (([⟨0, false, false⟩] : List Device).filter (fun d => d.available)).isEmpty
      = true ∧
    (async_update_data noAvailableGw = ⟨Except.ok [], 1, []⟩ ∧
     async_update_data_resolved noAvailableGw = ⟨Except.ok [], 1, []⟩) :=
  ⟨rfl, rfl, C3_theorem noAvailableGw [⟨0, false, false⟩] rfl rfl⟩

/-- Claim C4 counterexample: the climate update against an always-timing-out
gateway makes exactly 1 call — not 3 — and re-raises the timeout; there is no
retry loop in the climate category. -/
theorem C4_counterexample :
    climate_async_update_data climateTimeoutGw =
      ⟨Except.error PyExc.timeoutError, 1, []⟩ ∧
    (climate_async_update_data climateTimeoutGw).calls ≠ 3 :=
  ⟨rfl, by decide⟩

/-- Claim C4 (amended): a climate refresh against a gateway that always times
out makes exactly 1 attempt and propagates `asyncio.TimeoutError` — maximum
attempts = 3 does not apply to the climate category; because the update
raises, the coordinator retains the pre-existing snapshot (or empty if none
existed). -/
theorem C4_theorem (gw : Nat → GatewayAttempt) (prev : List Device)
    (h : 30 < (gw 0).latency) :
    climate_async_update_data gw = ⟨Except.error PyExc.timeoutError, 1, []⟩ ∧
    applyCycle prev (climate_async_update_data gw).result = prev := by
  have ha : attemptOutcome climate_timeout (gw 0) =
      Except.error PyExc.timeoutError := by
    unfold attemptOutcome climate_timeout
    rw [if_pos h]
  have hmain : climate_async_update_data gw =
      ⟨Except.error PyExc.timeoutError, 1, []⟩ := by
    simp [climate_async_update_data, ha]
  exact ⟨hmain, by simp [hmain, applyCycle]⟩

/-- Claim C4 witness: the 31-unit-latency gateway exceeds the climate budget,
the update makes one call and re-raises, and a pre-existing one-device
snapshot is retained. -/
theorem C4_witness :
    30 < (climateTimeoutGw 0).latency ∧
    (climate_async_update_data climateTimeoutGw =
        ⟨Except.error PyExc.timeoutError, 1, []⟩ ∧
     applyCycle [⟨5, true, false⟩]
        (climate_async_update_data climateTimeoutGw).result = [⟨5, true, false⟩]) :=
  ⟨by decide, C4_theorem climateTimeoutGw [⟨5, true, false⟩] (by decide)⟩

/-- Claim C5 counterexample: a successful climate cycle against a gateway
returning a single unavailable device emits a snapshot containing that
unavailable device — the climate path performs no availability filtering. -/
theorem C5_counterexample :
    (climate_async_update_data unavailableClimateGw).result =
      Except.ok [⟨7, false, false⟩] ∧
    (⟨7, false, false⟩ : Device).available = false :=
  ⟨rfl, rfl⟩

/-- Claim C5 (amended): a successful binary-sensor cycle emits exactly the
devices the gateway response marked available (unavailable ones are logged
and excluded), but a successful climate cycle returns the gateway's device
collection unchanged, so unavailable devices do appear in the climate
snapshot. -/
theorem C5_theorem (gwB gwC : Nat → GatewayAttempt) (dsB dsC : List Device)
    (hb : attemptOutcome binary_sensor_timeout (gwB 0) = Except.ok dsB)
    (hc : attemptOutcome climate_timeout (gwC 0) = Except.ok dsC) :
    (async_update_data gwB).result =
      Except.ok (dsB.filter (fun d => d.available)) ∧
    (climate_async_update_data gwC).result = Except.ok dsC := by
  constructor
  · cases he : (dsB.filter (fun d => d.available)).isEmpty with
    | true =>
      have hb2 : bsTryBody (gwB 0) = Except.ok [] := by
        simp [bsTryBody, hb, he]
      have hnil : dsB.filter (fun d => d.available) = [] :=
        List.isEmpty_iff.mp he
      simp [async_update_data, hb2, hnil]
    | false =>
      have hb2 : bsTryBody (gwB 0) =
          Except.ok (dsB.filter (fun d => d.available)) := by
        simp [bsTryBody, hb, he]
      simp [async_update_data, hb2]
  · simp [climate_async_update_data, hc]

/-- Claim C5 witness: a binary-sensor cycle against a gateway returning one
available and one unavailable device emits only the available one, while a
climate cycle against a gateway returning one unavailable device emits it. -/
theorem C5_witness :
    attemptOutcome binary_sensor_timeout (mixedBsGw 0) =
      Except.ok [⟨0, true, true⟩, ⟨1, false, false⟩] ∧
    attemptOutcome climate_timeout (unavailableClimateGw 0) =
      Except.ok [⟨7, false, false⟩] ∧
    ((async_update_data mixedBsGw).result =
        Except.ok (([⟨0, true, true⟩, ⟨1, false, false⟩] : List Device).filter
          (fun d => d.available)) ∧
     (climate_async_update_data unavailableClimateGw).result =
        Except.ok [⟨7, false, false⟩]) :=
  ⟨rfl, rfl, C5_theorem mixedBsGw unavailableClimateGw _ _ rfl rfl⟩

/-- Claim C6 counterexample: a transport error during a climate cycle
propagates out of the update function (the `except` block logs and
re-raises), and the same gateway makes the binary-sensor update propagate a
`NameError` — neither update function absorbs the error. -/
theorem C6_counterexample :
    climate_async_update_data transportFailGw =
      ⟨Except.error PyExc.transportError, 1, []⟩ ∧
    async_update_data transportFailGw = ⟨Except.error PyExc.nameError, 1, []⟩ :=
  ⟨rfl, rfl⟩

/-- Claim C6 (amended): every error arising during a climate refresh cycle is
logged and re-raised out of the update function rather than absorbed; the
prior snapshot is retained only because the surrounding coordinator (framework
code) catches the propagated exception. -/
theorem C6_theorem (gw : Nat → GatewayAttempt) (e : PyExc) (prev : List Device)
    (h : attemptOutcome climate_timeout (gw 0) = Except.error e) :
    climate_async_update_data gw = ⟨Except.error e, 1, []⟩ ∧
    applyCycle prev (climate_async_update_data gw).result = prev := by
  have hmain : climate_async_update_data gw = ⟨Except.error e, 1, []⟩ := by
    simp [climate_async_update_data, h]
  exact ⟨hmain, by simp [hmain, applyCycle]⟩

/-- Claim C6 witness: the transport-failing gateway makes the climate update
propagate the transport error, and a pre-existing snapshot is retained by the
coordinator. -/
theorem C6_witness :
    attemptOutcome climate_timeout (transportFailGw 0) =
      Except.error PyExc.transportError ∧
    (climate_async_update_data transportFailGw =
        ⟨Except.error PyExc.transportError, 1, []⟩ ∧
     applyCycle [⟨9, true, true⟩]
        (climate_async_update_data transportFailGw).result = [⟨9, true, true⟩]) :=
  ⟨rfl, C6_theorem transportFailGw PyExc.transportError [⟨9, true, true⟩] rfl⟩
